import Mathlib

/-!
Shallow embedding of the BallisticsToolkit flight-simulation core
(`src/ballistics/simulator.cpp`, `src/ballistics/trajectory.cpp`,
`src/include/ballistics/bullet.h`, `src/include/math/vector.h`) and proofs
about it.  C++ `float` arithmetic is modelled by exact rational arithmetic;
the transcendental routines (`std::sqrt`, `std::pow`, `std::exp`,
`std::sin`, `std::cos`, `std::atan2`) are abstracted as an explicit
dictionary `MathOps`, so every theorem below holds for every interpretation
of those routines, including the true real-valued one.
-/

namespace BTK

/-- Abstract interpretations of the transcendental `<cmath>` routines used by
the simulator.  Each field stands for the corresponding C++ function. -/
structure MathOps where
  sqrt : ℚ → ℚ
  pow : ℚ → ℚ → ℚ
  exp : ℚ → ℚ
  sin : ℚ → ℚ
  cos : ℚ → ℚ
  atan2 : ℚ → ℚ → ℚ

/-- `M_PI_F` from `math/conversions.h`, the float literal used by the code. -/
def M_PI_F : ℚ := 3.14159265358979323846

/-- `btk::math::Vector3D` (math/vector.h). -/
structure Vector3D where
  x : ℚ
  y : ℚ
  z : ℚ
deriving DecidableEq, Repr

namespace Vector3D

/-- `Vector3D(0,0,0)` default constructor. -/
def zero : Vector3D := ⟨0, 0, 0⟩

/-- `operator+` (component-wise sum). -/
def add (a b : Vector3D) : Vector3D := ⟨a.x + b.x, a.y + b.y, a.z + b.z⟩

/-- `operator-` (component-wise difference). -/
def sub (a b : Vector3D) : Vector3D := ⟨a.x - b.x, a.y - b.y, a.z - b.z⟩

/-- `operator*(float)` (scalar multiplication). -/
def smul (a : Vector3D) (s : ℚ) : Vector3D := ⟨a.x * s, a.y * s, a.z * s⟩

/-- `operator/(float)` (scalar division). -/
def sdiv (a : Vector3D) (s : ℚ) : Vector3D := ⟨a.x / s, a.y / s, a.z / s⟩

/-- `operator-()` (negation). -/
def neg (a : Vector3D) : Vector3D := ⟨-a.x, -a.y, -a.z⟩

/-- `dot` product. -/
def dot (a b : Vector3D) : ℚ := a.x * b.x + a.y * b.y + a.z * b.z

/-- `cross` product. -/
def cross (a b : Vector3D) : Vector3D :=
  ⟨a.y * b.z - a.z * b.y, a.z * b.x - a.x * b.z, a.x * b.y - a.y * b.x⟩

/-- `magnitude()`: `std::sqrt(x*x + y*y + z*z)` under the abstract `sqrt`. -/
def magnitude (mo : MathOps) (a : Vector3D) : ℚ :=
  mo.sqrt (a.x * a.x + a.y * a.y + a.z * a.z)

/-- `lerp`: `Vector3D(x + t*(o.x-x), y + t*(o.y-y), z + t*(o.z-z))`. -/
def lerp (a b : Vector3D) (t : ℚ) : Vector3D :=
  ⟨a.x + t * (b.x - a.x), a.y + t * (b.y - a.y), a.z + t * (b.z - a.z)⟩

end Vector3D

/-- `btk::ballistics::DragFunction` (bullet.h). -/
inductive DragFunction where
  | G1
  | G7
deriving DecidableEq, Repr

/-- `btk::ballistics::Bullet` (bullet.h): static properties plus the 4DOF
flight sub-state, including the two lag-filter ("beta equilibrium") angles. -/
structure Bullet where
  weight : ℚ
  diameter : ℚ
  length : ℚ
  bc : ℚ
  dragFunction : DragFunction
  position : Vector3D
  velocity : Vector3D
  spinRate : ℚ
  betaEqRight : ℚ
  betaEqUp : ℚ
  hasFlightState : Bool
deriving DecidableEq, Repr

namespace Bullet

/-- The static-only `Bullet` constructor (bullet.h lines 42-46); the C++
`drag_function` parameter defaults to G7 and is always passed explicitly
here. -/
def mkStatic (weight diameter length bc : ℚ)
    (dragFunction : DragFunction) : Bullet :=
  { weight := weight, diameter := diameter, length := length, bc := bc
    dragFunction := dragFunction
    position := Vector3D.zero, velocity := Vector3D.zero
    spinRate := 0, betaEqRight := 0, betaEqUp := 0
    hasFlightState := false }

/-- The flying-bullet constructor (bullet.h lines 56-60): copies the static
properties and the two lag-filter angles of `b`, installs the given
position/velocity/spin and marks the flight state valid. -/
def flying (b : Bullet) (position velocity : Vector3D) (spinRate : ℚ) : Bullet :=
  { weight := b.weight, diameter := b.diameter, length := b.length, bc := b.bc
    dragFunction := b.dragFunction
    position := position, velocity := velocity, spinRate := spinRate
    betaEqRight := b.betaEqRight, betaEqUp := b.betaEqUp
    hasFlightState := true }

/-- `estimateSpinMomentOfInertia()`: `weight * (0.30*diameter)^2`. -/
def estimateSpinMomentOfInertia (b : Bullet) : ℚ :=
  b.weight * ((3/10) * b.diameter) * ((3/10) * b.diameter)

end Bullet

/-- G7 drag data `(velocity_fps, coefficient, exponent)` (simulator.cpp). -/
def G7_DRAG_DATA : List (ℚ × ℚ × ℚ) :=
  [(4200, 1.29081656775919e-9, 3.24121295355962),
   (3000, 0.0171422231434847, 1.27907168025204),
   (1470, 2.33355948302505e-3, 1.52693913274526),
   (1260, 7.97592111627665e-4, 1.67688974440324),
   (1110, 5.71086414289273e-12, 4.3212826264889),
   (960, 3.02865108244904e-17, 5.99074203776707),
   (670, 7.52285155782565e-6, 2.1738019851075),
   (540, 1.31766281225189e-5, 2.08774690257991),
   (0, 1.34504843776525e-5, 2.08702306738884)]

/-- G1 drag data `(velocity_fps, coefficient, exponent)` (simulator.cpp). -/
def G1_DRAG_DATA : List (ℚ × ℚ × ℚ) :=
  [(4230, 1.477404177730177e-4, 1.9565),
   (3680, 1.920339268755614e-4, 1.925),
   (3450, 2.894751026819746e-4, 1.875),
   (3295, 4.349905111115636e-4, 1.825),
   (3130, 6.520421871892662e-4, 1.775),
   (2960, 9.748073694078696e-4, 1.725),
   (2830, 1.453721560187286e-3, 1.675),
   (2680, 2.162887202930376e-3, 1.625),
   (2460, 3.209559783129881e-3, 1.575),
   (2225, 3.904368218691249e-3, 1.55),
   (2015, 3.222942271262336e-3, 1.575),
   (1890, 2.203329542297809e-3, 1.625),
   (1810, 1.511001028891904e-3, 1.675),
   (1730, 8.609957592468259e-4, 1.75),
   (1595, 4.086146797305117e-4, 1.85),
   (1520, 1.954473210037398e-4, 1.95),
   (1420, 5.431896266462351e-5, 2.125),
   (1360, 8.847742581674416e-6, 2.375),
   (1315, 1.456922328720298e-6, 2.625),
   (1280, 2.419485191895565e-7, 2.875),
   (1220, 1.657956321067612e-8, 3.25),
   (1185, 4.745469537157371e-10, 3.75),
   (1150, 1.379746590025088e-11, 4.25),
   (1100, 4.070157961147882e-13, 4.75),
   (1060, 2.938236954847331e-14, 5.125)]

/-- Table selected by the drag family. -/
def dragData : DragFunction → List (ℚ × ℚ × ℚ)
  | DragFunction.G1 => G1_DRAG_DATA
  | DragFunction.G7 => G7_DRAG_DATA

/-- `std::get<0>(data[i])`: the velocity breakpoint of entry `i`. -/
def bpOf (data : List (ℚ × ℚ × ℚ)) (i : ℕ) : ℚ := (data.getD i (0, 0, 0)).1

/-- `(std::get<1>(data[i]), std::get<2>(data[i]))`: the (coefficient,
exponent) pair of entry `i`. -/
def coeffsOf (data : List (ℚ × ℚ × ℚ)) (i : ℕ) : ℚ × ℚ :=
  ((data.getD i (0, 0, 0)).2.1, (data.getD i (0, 0, 0)).2.2)

/-- The `while(left <= right)` binary-search loop of `findDragCoefficients`
(simulator.cpp lines 54-72).  The C++ `right = mid - 1` is only executed with
`mid ≥ 1` (the `mid == 0` test short-circuits first), so `Nat` subtraction is
faithful.  Exiting the loop falls through to the last-entry fallback. -/
def dragSearchLoop (data : List (ℚ × ℚ × ℚ)) (vp : ℚ) (left right : ℕ) :
    ℚ × ℚ :=
  if left ≤ right then
    if bpOf data ((left + right) / 2) < vp then
      if (left + right) / 2 = 0 ∨ vp ≤ bpOf data ((left + right) / 2 - 1) then
        coeffsOf data ((left + right) / 2)
      else dragSearchLoop data vp left ((left + right) / 2 - 1)
    else dragSearchLoop data vp ((left + right) / 2 + 1) right
  else coeffsOf data (data.length - 1)
termination_by right + 1 - left
decreasing_by
  · omega
  · omega

/-- `findDragCoefficients(vp_fps, drag_type)` (simulator.cpp lines 38-76). -/
def findDragCoefficients (vp_fps : ℚ) (dragType : DragFunction) : ℚ × ℚ :=
  let data := dragData dragType
  if vp_fps ≤ 0 then coeffsOf data (data.length - 1)
  else if bpOf data 0 ≤ vp_fps then coeffsOf data 0
  else dragSearchLoop data vp_fps 0 (data.length - 1)

/-- `btk::ballistics::TrajectoryPoint` (trajectory.h). -/
structure TrajectoryPoint where
  time : ℚ
  state : Bullet
  wind : Vector3D
deriving DecidableEq, Repr

namespace TrajectoryPoint

/-- `getDistance()`: the state's X position (trajectory.h line 34). -/
def getDistance (p : TrajectoryPoint) : ℚ := p.state.position.x

end TrajectoryPoint

/-- Placeholder used as the out-of-bounds default of `List.getD`; every index
below is within bounds, mirroring the in-bounds `std::vector` accesses. -/
def dfltPoint : TrajectoryPoint :=
  ⟨0, Bullet.mkStatic 0 0 0 0 DragFunction.G1, Vector3D.zero⟩

/-- Element `i` of the point vector (`points_[i]`). -/
def ptAt (pts : List TrajectoryPoint) (i : ℕ) : TrajectoryPoint :=
  pts.getD i dfltPoint

/-- The `while(left < right - 1)` bracketing binary-search loop shared by
`Trajectory::atDistance` (trajectory.cpp lines 48-64) and
`Trajectory::atTime` (lines 102-117), parametrised by the sort key of index
`i`.  Both call sites have `right ≥ 1`, where the C++ `size_t` condition
`left < right - 1` coincides with `left + 1 < right`. -/
def bracketSearch (key : ℕ → ℚ) (target : ℚ) (left right : ℕ) : ℕ × ℕ :=
  if left + 1 < right then
    if target < key (left + (right - left) / 2) then
      bracketSearch key target left (left + (right - left) / 2)
    else bracketSearch key target (left + (right - left) / 2) right
  else (left, right)
termination_by right - left
decreasing_by
  · omega
  · omega

/-- `Trajectory::interpolate(point1, point2, distance)` (trajectory.cpp lines
242-260): recomputes the fraction from the two distances, lerps position,
velocity and spin rate, and rebuilds the state through the flying-bullet
constructor applied to `point1`'s state. -/
def interpolateByDistance (point1 point2 : TrajectoryPoint) (distance : ℚ) :
    Bullet :=
  let dist1 := point1.getDistance
  let dist2 := point2.getDistance
  let t := (distance - dist1) / (dist2 - dist1)
  let state1 := point1.state
  let state2 := point2.state
  let pos := state1.position.lerp state2.position t
  let vel := state1.velocity.lerp state2.velocity t
  let spin := state1.spinRate + t * (state2.spinRate - state1.spinRate)
  Bullet.flying state1 pos vel spin

/-- `Trajectory::atDistance(distance)` (trajectory.cpp lines 28-83). -/
def atDistance (pts : List TrajectoryPoint) (distance : ℚ) :
    Option TrajectoryPoint :=
  if pts.isEmpty then none
  else if (ptAt pts (pts.length - 1)).getDistance ≤ distance then
    some (ptAt pts (pts.length - 1))
  else if distance ≤ (ptAt pts 0).getDistance then
    some (ptAt pts 0)
  else
    let lr := bracketSearch (fun i => (ptAt pts i).getDistance) distance 0
      (pts.length - 1)
    let left := lr.1
    let right := lr.2
    let dist1 := (ptAt pts left).getDistance
    let dist2 := (ptAt pts right).getDistance
    let t := (distance - dist1) / (dist2 - dist1)
    let interpTime := (ptAt pts left).time +
      t * ((ptAt pts right).time - (ptAt pts left).time)
    let interpState := interpolateByDistance (ptAt pts left) (ptAt pts right)
      distance
    let wind := (ptAt pts left).wind.lerp (ptAt pts right).wind t
    some ⟨interpTime, interpState, wind⟩

/-- `Trajectory::atTime(time)` (trajectory.cpp lines 85-141). -/
def atTime (pts : List TrajectoryPoint) (time : ℚ) : Option TrajectoryPoint :=
  if pts.isEmpty then none
  else if time ≤ (ptAt pts 0).time then
    some (ptAt pts 0)
  else if (ptAt pts (pts.length - 1)).time ≤ time then
    some (ptAt pts (pts.length - 1))
  else
    let lr := bracketSearch (fun i => (ptAt pts i).time) time 0
      (pts.length - 1)
    let left := lr.1
    let right := lr.2
    let time1 := (ptAt pts left).time
    let time2 := (ptAt pts right).time
    let t := (time - time1) / (time2 - time1)
    let state1 := (ptAt pts left).state
    let state2 := (ptAt pts right).state
    let pos := state1.position.lerp state2.position t
    let vel := state1.velocity.lerp state2.velocity t
    let spin := state1.spinRate + t * (state2.spinRate - state1.spinRate)
    let wind := (ptAt pts left).wind.lerp (ptAt pts right).wind t
    some ⟨time, Bullet.flying state1 pos vel spin, wind⟩

/-- `btk::physics::Constants::GRAVITY`. -/
def GRAVITY : ℚ := 9.80665

/-- `btk::physics::Constants::AIR_DENSITY_STANDARD`. -/
def AIR_DENSITY_STANDARD : ℚ := 1.225

/-- `Conversions::mpsToFps`. -/
def mpsToFps (mps : ℚ) : ℚ := mps * 3.28084

/-- `Conversions::fpsToMps`. -/
def fpsToMps (fps : ℚ) : ℚ := fps * 0.3048

/-- `btk::ballistics::Simulator`'s data members (simulator.h).  The
atmosphere collaborator enters the core only through
`atmosphere_.getAirDensity()`, embedded as the field `airDensity`. -/
structure Simulator where
  initialBullet : Bullet
  currentBullet : Bullet
  airDensity : ℚ
  wind : Vector3D
  currentTime : ℚ
  trajectory : List TrajectoryPoint
  liftSlopePerRad : ℚ
  restoringMomentSlopePerRad : ℚ
  yawOfReposeScale : ℚ
  betaLagScale : ℚ
deriving DecidableEq, Repr

namespace Simulator

/-- `Simulator::calculateDragRetardationFor` (simulator.cpp lines 79-92). -/
def calculateDragRetardationFor (mo : MathOps) (sim : Simulator) (s : Bullet) :
    ℚ :=
  let v_rel := s.velocity.sub sim.wind
  let v_rel_mag := v_rel.magnitude mo
  let v_fps := mpsToFps v_rel_mag
  let am := findDragCoefficients v_fps s.dragFunction
  if am.1 ≤ 0 ∨ am.2 ≤ 0 then 0
  else
    let density_ratio := sim.airDensity / AIR_DENSITY_STANDARD
    let ret_fps_s := am.1 * mo.pow v_fps am.2 * density_ratio / s.bc
    fpsToMps ret_fps_s

/-- `safe_norm(v, fb)` (simulator.cpp lines 95-99). -/
def safe_norm (mo : MathOps) (v fb : Vector3D) : Vector3D :=
  let n := v.magnitude mo
  if 1e-9 < n then v.sdiv n else fb

/-- Simulator.cpp lines 158-159: the transient crosswind-jump components
computed from the high-pass sideslip components `(hpR, hpU)`:
`jumpR = scale * (hand * (-hpU))`, `jumpU = scale * (hand * (-hpR))`. -/
def jumpComponents (scale hand hpR hpU : ℚ) : ℚ × ℚ :=
  (scale * (hand * (-hpU)), scale * (hand * (-hpR)))

/-- `Simulator::computeSpinWindAccel` (simulator.cpp lines 102-167).  The C++
routine mutates the two lag-filter angles of `s` through
`setBetaEqRight`/`setBetaEqUp`; here it returns the extra acceleration
together with the updated bullet. -/
def computeSpinWindAccel (mo : MathOps) (sim : Simulator) (s : Bullet)
    (gravity wind : Vector3D) (dt : ℚ) : Vector3D × Bullet :=
  let v := s.velocity
  let u := v.sub wind
  let V := u.magnitude mo
  if V < 1e-3 then (Vector3D.zero, s)
  else
    let tHat := if 1e-6 < v.magnitude mo then v.sdiv (v.magnitude mo)
      else u.sdiv V
    let worldUp : Vector3D := ⟨0, 1, 0⟩
    let right := safe_norm mo (tHat.cross worldUp) ⟨1, 0, 0⟩
    let upInPl := safe_norm mo (tHat.cross right) ⟨0, 1, 0⟩
    let rho := sim.airDensity
    let qDyn := 0.5 * rho * V * V
    let Sref := 0.25 * M_PI_F * s.diameter * s.diameter
    let refLen := max s.diameter s.length
    let denom := s.estimateSpinMomentOfInertia * |s.spinRate| + 1e-12
    let alignRate := qDyn * Sref * refLen * |sim.restoringMomentSlopePerRad| /
      denom
    let betaAlignRate := sim.betaLagScale * alignRate
    let aLP := 1 - mo.exp (-(betaAlignRate * dt))
    let gPerp := gravity.sub (tHat.smul (gravity.dot tHat))
    let tXg := gPerp.cross tHat
    let yor := if 1e-6 < alignRate then
      sim.yawOfReposeScale * (tXg.magnitude mo / (V * alignRate)) else 0
    let hand : ℚ := if 0 ≤ s.spinRate then 1 else -1
    let yorRight := hand * ((safe_norm mo tXg right).dot right) * yor
    let u_perp := u.sub (tHat.smul (u.dot tHat))
    let betaR := u_perp.dot right / (V + 1e-12)
    let betaU := u_perp.dot upInPl / (V + 1e-12)
    let betaEqRight := s.betaEqRight + aLP * (betaR - s.betaEqRight)
    let betaEqUp := s.betaEqUp + aLP * (betaU - s.betaEqUp)
    let s' := { s with betaEqRight := betaEqRight, betaEqUp := betaEqUp }
    let hpR := betaR - betaEqRight
    let hpU := betaU - betaEqUp
    let jump := jumpComponents sim.yawOfReposeScale hand hpR hpU
    let gain := qDyn * Sref * sim.liftSlopePerRad / s.weight
    let extra := (right.smul (gain * (yorRight + jump.1))).add
      (upInPl.smul (gain * jump.2))
    (extra, s')

/-- `Simulator::calculateAccelerationFor` (simulator.cpp lines 170-186),
returning the acceleration together with the (lag-filter-updated) bullet. -/
def calculateAccelerationFor (mo : MathOps) (sim : Simulator) (s : Bullet)
    (dt : ℚ) : Vector3D × Bullet :=
  let v_rel := s.velocity.sub sim.wind
  let v_rel_mag := v_rel.magnitude mo
  let gravity : Vector3D := ⟨0, -GRAVITY, 0⟩
  if v_rel_mag ≤ 0 then (gravity, s)
  else
    let drag_ret := calculateDragRetardationFor mo sim s
    let drag_accel := (v_rel.sdiv v_rel_mag).smul (-drag_ret)
    let es := computeSpinWindAccel mo sim s gravity sim.wind dt
    ((drag_accel.add gravity).add es.1, es.2)

/-- `Simulator::resetToInitial` (simulator.cpp lines 209-214). -/
def resetToInitial (sim : Simulator) : Simulator :=
  { sim with
    currentBullet := sim.initialBullet
    currentTime := 0
    trajectory := [] }

/-- `Simulator::setInitialBullet` (simulator.cpp lines 189-193). -/
def setInitialBullet (sim : Simulator) (bullet : Bullet) : Simulator :=
  resetToInitial { sim with initialBullet := bullet }

/-- `Simulator::timeStep(dt)` (simulator.cpp lines 340-360).  In C++ the
start evaluation mutates the local copy `s0`'s lag angles (returned here as
`es0.2`), `sHalf` is then constructed from that mutated copy, the midpoint
evaluation mutates `sHalf`'s lag angles (`esH.2`), and the final state is
rebuilt from the mutated `sHalf`. -/
def timeStep (mo : MathOps) (sim : Simulator) (dt : ℚ) : Simulator :=
  let s0 := sim.currentBullet
  let es0 := calculateAccelerationFor mo sim s0 dt
  let a0 := es0.1
  let vHalf := s0.velocity.add (a0.smul (0.5 * dt))
  let xHalf := s0.position.add (vHalf.smul (0.5 * dt))
  let sHalf := Bullet.flying es0.2 xHalf vHalf s0.spinRate
  let esH := calculateAccelerationFor mo sim sHalf dt
  let aHalf := esH.1
  let v1 := s0.velocity.add (aHalf.smul dt)
  let x1 := s0.position.add (vHalf.smul dt)
  let finalBullet := Bullet.flying esH.2 x1 v1 s0.spinRate
  { sim with
    currentBullet := finalBullet
    currentTime := sim.currentTime + dt
    trajectory := sim.trajectory ++
      [⟨sim.currentTime + dt, finalBullet, sim.wind⟩] }

/-- Fuel bound for the `simulate` while-loop: each iteration advances
`current_time_` by exactly `dt`, so for `dt > 0` at most
`⌈max_time / dt⌉` iterations can satisfy the loop condition. -/
def simulateFuel (maxTime dt : ℚ) : ℕ := (maxTime / dt).ceil.toNat + 1

/-- The `while(current_time_ < max_sim_time)` loop of `Simulator::simulate`
(simulator.cpp lines 300-305), with its in-loop distance break. -/
def simulateLoop (mo : MathOps) (maxDistance dt maxSimTime : ℚ) :
    ℕ → Simulator → Simulator
  | 0, sim => sim
  | fuel + 1, sim =>
    if sim.currentTime < maxSimTime then
      let sim' := timeStep mo sim dt
      if maxDistance < -sim'.currentBullet.position.z then sim'
      else simulateLoop mo maxDistance dt maxSimTime fuel sim'
    else sim

/-- `Simulator::simulate(max_distance, dt, max_time)` (simulator.cpp lines
292-306): appends the initial point at the current time, then runs the
time-step loop. -/
def simulate (mo : MathOps) (sim : Simulator)
    (maxDistance dt maxTime : ℚ) : Simulator :=
  let sim1 := { sim with trajectory := sim.trajectory ++
    [⟨sim.currentTime, sim.currentBullet, sim.wind⟩] }
  simulateLoop mo maxDistance dt (sim1.currentTime + maxTime)
    (simulateFuel maxTime dt) sim1

/-- The launch-velocity vector assembled by `Simulator::computeZero`
(simulator.cpp lines 225-231 and 275-279):
`(v·cosPitch·sinYaw, v·sinPitch, -v·cosPitch·cosYaw)`. -/
def launchVelocity (mo : MathOps) (muzzleVelocity pitch yaw : ℚ) : Vector3D :=
  ⟨muzzleVelocity * mo.cos pitch * mo.sin yaw,
   muzzleVelocity * mo.sin pitch,
   -(muzzleVelocity * mo.cos pitch * mo.cos yaw)⟩

/-- One iteration of the `computeZero` loop up to the trajectory query
(simulator.cpp lines 224-245): build the candidate launch state, reset, run
the sweep to `1.1 ×` the target distance with `max_time = 5`, and
interpolate the trajectory at the target distance. -/
def zeroTrial (mo : MathOps) (muzzleVelocity : ℚ) (targetPosition : Vector3D)
    (dt spinRate : ℚ) (sim : Simulator) (pitch yaw : ℚ) :
    Simulator × Option TrajectoryPoint :=
  let velocityInit := launchVelocity mo muzzleVelocity pitch yaw
  let testState := Bullet.flying sim.initialBullet Vector3D.zero velocityInit
    spinRate
  let simDist := -targetPosition.z * 1.1
  let sim1 := setInitialBullet sim testState
  let sim2 := { sim1 with currentTime := 0 }
  let sim3 := simulate mo sim2 simDist dt 5
  (sim3, atDistance sim3.trajectory (-targetPosition.z))

/-- The iteration loop of `Simulator::computeZero` (simulator.cpp lines
222-272), parametrised by the per-iteration trial `trial` (instantiated with
`zeroTrial` in `computeZero`).  Returns the simulator state and the
last-computed pitch/yaw: the loop stops when the budget runs out, when the
trial yields no point at the target distance, or when the 2-D error
magnitude drops below `tolerance`; otherwise it applies the damped (0.5)
`atan2` corrections and continues. -/
def zeroLoop (mo : MathOps)
    (trial : Simulator → ℚ → ℚ → Simulator × Option TrajectoryPoint)
    (targetPosition : Vector3D) (tolerance : ℚ) :
    ℕ → Simulator → ℚ → ℚ → Simulator × ℚ × ℚ
  | 0, sim, pitch, yaw => (sim, pitch, yaw)
  | n + 1, sim, pitch, yaw =>
    let so := trial sim pitch yaw
    match so.2 with
    | none => (so.1, pitch, yaw)
    | some pt =>
      let error := pt.state.position.sub targetPosition
      let lateralError := error.x
      let verticalError := error.y
      let xyErrorMagnitude := mo.sqrt (lateralError * lateralError +
        verticalError * verticalError)
      if xyErrorMagnitude < tolerance then (so.1, pitch, yaw)
      else
        let pitchCorrection := -(mo.atan2 verticalError (-targetPosition.z))
        let yawCorrection := -(mo.atan2 lateralError (-targetPosition.z))
        zeroLoop mo trial targetPosition tolerance n so.1
          (pitch + 0.5 * pitchCorrection) (yaw + 0.5 * yawCorrection)

/-- `Simulator::computeZero` (simulator.cpp lines 217-289): run the damped
iteration from the initial guesses `pitch = 0.01, yaw = 0`, rebuild the
zeroed launch state from the final angles, install it as the initial bullet,
reset, and return (reset simulator, zeroed initial bullet). -/
def computeZero (mo : MathOps) (sim : Simulator) (muzzleVelocity : ℚ)
    (targetPosition : Vector3D) (dt : ℚ) (maxIterations : ℕ)
    (tolerance spinRate : ℚ) : Simulator × Bullet :=
  let res := zeroLoop mo (zeroTrial mo muzzleVelocity targetPosition dt
    spinRate) targetPosition tolerance maxIterations sim 0.01 0
  let velocityFinal := launchVelocity mo muzzleVelocity res.2.1 res.2.2
  let initialState := Bullet.flying res.1.initialBullet Vector3D.zero
    velocityFinal spinRate
  let simOut := resetToInitial { res.1 with initialBullet := initialState }
  (simOut, initialState)

end Simulator

/-! ### Predicates and concrete instances used by the statements below -/

/-- The table's velocity breakpoints are strictly decreasing. -/
def descendingBp (data : List (ℚ × ℚ × ℚ)) : Prop :=
  ∀ i j, i < j → j < data.length → bpOf data j < bpOf data i

/-- The stored points' times are strictly increasing along the list. -/
def timesIncreasing (pts : List TrajectoryPoint) : Prop :=
  List.Chain' (fun p q => p.time < q.time) pts

/-- Invariant tying a simulator's trajectory to its clock: times strictly
increase and never exceed the current time. -/
def Simulator.goodTraj (sim : Simulator) : Prop :=
  timesIncreasing sim.trajectory ∧
    ∀ p ∈ sim.trajectory, p.time ≤ sim.currentTime

/-- Simulator states reachable from a freshly reset state by `timeStep` and
`simulate` calls with `dt > 0`, where every `simulate` call is made with the
trajectory empty (as `computeZero` does via `setInitialBullet`). -/
inductive ReachableSim (mo : MathOps) : Simulator → Prop where
  | start (sim : Simulator) : sim.trajectory = [] →
      ReachableSim mo sim
  | step {sim : Simulator} (dt : ℚ) : ReachableSim mo sim → 0 < dt →
      ReachableSim mo (Simulator.timeStep mo sim dt)
  | run {sim : Simulator} (maxDistance dt maxTime : ℚ) : ReachableSim mo sim →
      0 < dt → sim.trajectory = [] →
      ReachableSim mo (Simulator.simulate mo sim maxDistance dt maxTime)

/-- A concrete interpretation of the transcendental routines, used to
instantiate universally quantified statements at explicit inputs. -/
def trivialOps : MathOps :=
  { sqrt := fun _ => 0, pow := fun _ _ => 0, exp := fun _ => 0
    sin := fun _ => 0, cos := fun _ => 0, atan2 := fun _ _ => 0 }

/-- Static bullet used by the concrete trajectories below. -/
def demoStatic : Bullet := Bullet.mkStatic 1 1 1 1 DragFunction.G7

/-- A flying state at downrange (X) distance `d`, with spin `s`. -/
def demoState (d s : ℚ) : Bullet :=
  Bullet.flying demoStatic ⟨d, 0, 0⟩ ⟨10 * s, 0, 0⟩ s

/-- The spec's synthetic trajectory `{(t=0,d=0), (t=1,d=100), (t=2,d=300)}`,
with distinct spins and winds so that every interpolated field is visible. -/
def demoPts : List TrajectoryPoint :=
  [⟨0, demoState 0 0, ⟨0, 0, 0⟩⟩,
   ⟨1, demoState 100 2, ⟨1, 0, 0⟩⟩,
   ⟨2, demoState 300 4, ⟨2, 0, 0⟩⟩]

/-- A flying state at X distance `d` carrying nonzero lag-filter angles
`(br, bu)` (as produced by `setBetaEqRight`/`setBetaEqUp` during flight). -/
def demoBetaState (d br bu : ℚ) : Bullet :=
  { Bullet.flying demoStatic ⟨d, 0, 0⟩ ⟨10, 0, 0⟩ 1 with
    betaEqRight := br, betaEqUp := bu }

/-- Two-point trajectory whose left state carries the distinctive lag-filter
angles `(1/2, 1/3)`; the right state carries `(1/7, 1/9)`. -/
def betaPts : List TrajectoryPoint :=
  [⟨0, demoBetaState 0 (1/2) (1/3), ⟨0, 0, 0⟩⟩,
   ⟨1, demoBetaState 100 (1/7) (1/9), ⟨0, 0, 0⟩⟩]

/-- Two-point trajectory whose distances decrease (5 then 3) and whose times
decrease (5 then 3): `addPoint` enforces no monotonicity. -/
def nonMonoPts : List TrajectoryPoint :=
  [⟨5, demoState 5 0, ⟨0, 0, 0⟩⟩,
   ⟨3, demoState 3 1, ⟨0, 0, 0⟩⟩]

/-- A concrete simulator with an empty trajectory and zero clock. -/
def c8Sim : Simulator :=
  { initialBullet := demoState 0 1
    currentBullet := demoState 0 1
    airDensity := 1.225
    wind := Vector3D.zero
    currentTime := 0
    trajectory := []
    liftSlopePerRad := 1.27169
    restoringMomentSlopePerRad := -0.124862
    yawOfReposeScale := 0.426516
    betaLagScale := 0.670554 }

/-! ### Drag-table lemmas -/

/-- Breakpoints of a descending table are antitone in the index. -/
theorem bpOf_le_of_le (data : List (ℚ × ℚ × ℚ)) (hdesc : descendingBp data)
    {i j : ℕ} (hij : i ≤ j) (hj : j < data.length) :
    bpOf data j ≤ bpOf data i := by
  rcases eq_or_lt_of_le hij with rfl | h
  · exact le_refl _
  · exact (hdesc i j h hj).le

/-- Invariant of the drag binary search: on a strictly descending table, a
speed strictly inside the band `(bp k, bp (k-1)]` makes the loop return the
(coefficient, exponent) pair of entry `k`, for any enclosing search window
and enough fuel. -/
theorem dragSearchLoop_finds (data : List (ℚ × ℚ × ℚ)) (vp : ℚ)
    (hdesc : descendingBp data) (k : ℕ) (hk1 : 1 ≤ k) (hkn : k < data.length)
    (hlow : bpOf data k < vp) (hhigh : vp ≤ bpOf data (k - 1)) :
    ∀ n left right, right + 1 - left ≤ n → left ≤ k → k ≤ right →
      right < data.length →
      dragSearchLoop data vp left right = coeffsOf data k := by
  intro n
  induction n with
  | zero => intro left right hm hl hr _; omega
  | succ n ih =>
    intro left right hm hl hr hrlen
    have hlr : left ≤ right := le_trans hl hr
    rw [dragSearchLoop, if_pos hlr]
    have hmid_le : (left + right) / 2 ≤ right := by omega
    have hmid_ge : left ≤ (left + right) / 2 := by omega
    by_cases hvp : bpOf data ((left + right) / 2) < vp
    · have hmk : k ≤ (left + right) / 2 := by
        by_contra hc
        push_neg at hc
        have hle : bpOf data (k - 1) ≤ bpOf data ((left + right) / 2) :=
          bpOf_le_of_le data hdesc (by omega) (by omega)
        linarith
      rw [if_pos hvp]
      by_cases hstop : (left + right) / 2 = 0 ∨
        vp ≤ bpOf data ((left + right) / 2 - 1)
      · rw [if_pos hstop]
        have heq : (left + right) / 2 = k := by
          rcases hstop with h0 | hle
          · omega
          · by_contra hc
            have hlt : bpOf data ((left + right) / 2 - 1) ≤ bpOf data k :=
              bpOf_le_of_le data hdesc (by omega) (by omega)
            linarith
        rw [heq]
      · rw [if_neg hstop]
        push_neg at hstop
        have hmk1 : k ≤ (left + right) / 2 - 1 := by
          by_contra hc
          push_neg at hc
          have hle : bpOf data (k - 1) ≤ bpOf data ((left + right) / 2 - 1) :=
            bpOf_le_of_le data hdesc (by omega) (by omega)
          linarith [hstop.2]
        exact ih left ((left + right) / 2 - 1) (by omega) hl hmk1 (by omega)
    · rw [if_neg hvp]
      push_neg at hvp
      have hmk : (left + right) / 2 < k := by
        by_contra hc
        push_neg at hc
        have hle : bpOf data ((left + right) / 2) ≤ bpOf data k :=
          bpOf_le_of_le data hdesc hc (by omega)
        linarith
      exact ih ((left + right) / 2 + 1) right (by omega) (by omega) hr hrlen

/-- A strictly descending chain of first components gives `descendingBp`. -/
theorem descending_of_chain (data : List (ℚ × ℚ × ℚ))
    (h : List.Chain' (fun a b => b.1 < a.1) data) : descendingBp data := by
  haveI : IsTrans (ℚ × ℚ × ℚ) (fun a b => b.1 < a.1) :=
    ⟨fun _ _ _ h1 h2 => lt_trans h2 h1⟩
  intro i j hij hj
  have hp : List.Pairwise (fun a b => b.1 < a.1) data :=
    List.chain'_iff_pairwise.mp h
  rw [List.pairwise_iff_getElem] at hp
  have hi : i < data.length := lt_trans hij hj
  have hg := hp i j hi hj hij
  simpa [bpOf, List.getD, List.getElem?_eq_getElem hi,
    List.getElem?_eq_getElem hj] using hg

/-- The G7 table's breakpoints are strictly descending. -/
theorem descendingBp_G7 : descendingBp G7_DRAG_DATA := by
  refine descending_of_chain _ ?_
  simp only [G7_DRAG_DATA, List.chain'_cons, List.chain'_singleton]
  norm_num

/-- The G1 table's breakpoints are strictly descending. -/
theorem descendingBp_G1 : descendingBp G1_DRAG_DATA := by
  refine descending_of_chain _ ?_
  simp only [G1_DRAG_DATA, List.chain'_cons, List.chain'_singleton]
  norm_num

/-! ### Trajectory bracketing lemmas -/

/-- Invariant of the shared bracketing binary search: starting from a window
whose key brackets the target, it returns an adjacent pair inside the window
whose keys bracket the target. -/
theorem bracketSearch_spec (key : ℕ → ℚ) (target : ℚ) :
    ∀ n left right, right - left ≤ n → left < right →
      key left ≤ target → target < key right →
      (bracketSearch key target left right).2 =
        (bracketSearch key target left right).1 + 1 ∧
      left ≤ (bracketSearch key target left right).1 ∧
      (bracketSearch key target left right).2 ≤ right ∧
      key (bracketSearch key target left right).1 ≤ target ∧
      target < key (bracketSearch key target left right).2 := by
  intro n
  induction n with
  | zero => intro l r hm hlr _ _; omega
  | succ n ih =>
    intro l r hm hlr hkl hkr
    rw [bracketSearch]
    by_cases hc : l + 1 < r
    · rw [if_pos hc]
      have hm1 : l < l + (r - l) / 2 := by omega
      have hm2 : l + (r - l) / 2 < r := by omega
      by_cases ht : target < key (l + (r - l) / 2)
      · rw [if_pos ht]
        have hs := ih l (l + (r - l) / 2) (by omega) hm1 hkl ht
        exact ⟨hs.1, hs.2.1, le_trans hs.2.2.1 hm2.le, hs.2.2.2⟩
      · rw [if_neg ht]
        push_neg at ht
        have hs := ih (l + (r - l) / 2) r (by omega) hm2 ht hkr
        exact ⟨hs.1, le_trans hm1.le hs.2.1, hs.2.2.1, hs.2.2.2⟩
    · rw [if_neg hc]
      exact ⟨by omega, le_refl _, le_refl _, hkl, hkr⟩

/-- The interior case of `atDistance`: for a query strictly inside the
stored distance range, the result is the interpolation between an adjacent
bracketing pair with the parametric fraction recomputed from distances. -/
theorem atDistance_bracket (pts : List TrajectoryPoint) (q : ℚ)
    (hne : pts ≠ [])
    (hfirst : (ptAt pts 0).getDistance < q)
    (hlast : q < (ptAt pts (pts.length - 1)).getDistance) :
    ∃ k, k + 1 ≤ pts.length - 1 ∧
      (ptAt pts k).getDistance ≤ q ∧ q < (ptAt pts (k + 1)).getDistance ∧
      atDistance pts q = some
        ⟨(ptAt pts k).time +
            (q - (ptAt pts k).getDistance) /
              ((ptAt pts (k + 1)).getDistance - (ptAt pts k).getDistance) *
              ((ptAt pts (k + 1)).time - (ptAt pts k).time),
          interpolateByDistance (ptAt pts k) (ptAt pts (k + 1)) q,
          (ptAt pts k).wind.lerp ((ptAt pts (k + 1)).wind)
            ((q - (ptAt pts k).getDistance) /
              ((ptAt pts (k + 1)).getDistance - (ptAt pts k).getDistance))⟩ := by
  have hne' : ¬ (pts.isEmpty = true) := by simpa [List.isEmpty_iff] using hne
  have hlen0 : 0 < pts.length := List.length_pos.mpr hne
  have hlen : 2 ≤ pts.length := by
    rcases Nat.lt_or_ge pts.length 2 with h | h
    · have h1 : pts.length = 1 := by omega
      rw [h1] at hlast
      norm_num at hlast
      linarith
    · exact h
  have hs := bracketSearch_spec (fun i => (ptAt pts i).getDistance) q
    pts.length 0 (pts.length - 1) (by omega) (by omega) hfirst.le hlast
  refine ⟨(bracketSearch (fun i => (ptAt pts i).getDistance) q 0
    (pts.length - 1)).1, by omega, hs.2.2.2.1, ?_, ?_⟩
  · have h2 := hs.2.2.2.2
    rwa [hs.1] at h2
  · rw [atDistance, if_neg hne', if_neg (not_le.mpr hlast),
      if_neg (not_le.mpr hfirst)]
    simp only []
    rw [hs.1]

/-- The interior case of `atTime`: for a query strictly inside the stored
time range, the result carries the query time and lerps position, velocity,
spin rate and wind between an adjacent bracketing pair. -/
theorem atTime_bracket (pts : List TrajectoryPoint) (q : ℚ)
    (hne : pts ≠ [])
    (hfirst : (ptAt pts 0).time < q)
    (hlast : q < (ptAt pts (pts.length - 1)).time) :
    ∃ k, k + 1 ≤ pts.length - 1 ∧
      (ptAt pts k).time ≤ q ∧ q < (ptAt pts (k + 1)).time ∧
      atTime pts q = some
        ⟨q,
          Bullet.flying (ptAt pts k).state
            ((ptAt pts k).state.position.lerp ((ptAt pts (k + 1)).state.position)
              ((q - (ptAt pts k).time) /
                ((ptAt pts (k + 1)).time - (ptAt pts k).time)))
            ((ptAt pts k).state.velocity.lerp ((ptAt pts (k + 1)).state.velocity)
              ((q - (ptAt pts k).time) /
                ((ptAt pts (k + 1)).time - (ptAt pts k).time)))
            ((ptAt pts k).state.spinRate +
              (q - (ptAt pts k).time) /
                ((ptAt pts (k + 1)).time - (ptAt pts k).time) *
                ((ptAt pts (k + 1)).state.spinRate -
                  (ptAt pts k).state.spinRate)),
          (ptAt pts k).wind.lerp ((ptAt pts (k + 1)).wind)
            ((q - (ptAt pts k).time) /
              ((ptAt pts (k + 1)).time - (ptAt pts k).time))⟩ := by
  have hne' : ¬ (pts.isEmpty = true) := by simpa [List.isEmpty_iff] using hne
  have hlen0 : 0 < pts.length := List.length_pos.mpr hne
  have hlen : 2 ≤ pts.length := by
    rcases Nat.lt_or_ge pts.length 2 with h | h
    · have h1 : pts.length = 1 := by omega
      rw [h1] at hlast
      norm_num at hlast
      linarith
    · exact h
  have hs := bracketSearch_spec (fun i => (ptAt pts i).time) q
    pts.length 0 (pts.length - 1) (by omega) (by omega) hfirst.le hlast
  refine ⟨(bracketSearch (fun i => (ptAt pts i).time) q 0
    (pts.length - 1)).1, by omega, hs.2.2.2.1, ?_, ?_⟩
  · have h2 := hs.2.2.2.2
    rwa [hs.1] at h2
  · rw [atTime, if_neg hne', if_neg (not_le.mpr hfirst),
      if_neg (not_le.mpr hlast)]
    simp only []
    rw [hs.1]

/-- The bracketing search on the demo trajectory at distance 150 selects the
second and third stored points. -/
theorem demoBracket :
    bracketSearch (fun i => (ptAt demoPts i).getDistance) 150 0
      (demoPts.length - 1) = (1, 2) := by
  rw [bracketSearch, if_pos (by norm_num [demoPts]),
    if_neg (by norm_num [demoPts, ptAt, TrajectoryPoint.getDistance, demoState,
      demoStatic, Bullet.flying, Bullet.mkStatic])]
  rw [bracketSearch, if_neg (by norm_num [demoPts])]
  norm_num [demoPts]

/-! ### Acceleration-evaluation frame lemmas -/

/-- The spin-aero evaluation touches only the two lag-filter angles of the
bullet it is given. -/
theorem computeSpinWindAccel_beta_only (mo : MathOps) (sim : Simulator)
    (s : Bullet) (gravity wind : Vector3D) (dt : ℚ) :
    ∃ br bu, (Simulator.computeSpinWindAccel mo sim s gravity wind dt).2 =
      { s with betaEqRight := br, betaEqUp := bu } := by
  rw [Simulator.computeSpinWindAccel]
  split_ifs
  all_goals first
    | exact ⟨s.betaEqRight, s.betaEqUp, rfl⟩
    | exact ⟨_, _, rfl⟩

/-- The full acceleration evaluation touches only the two lag-filter
angles of the bullet it is given. -/
theorem calculateAccelerationFor_beta_only (mo : MathOps) (sim : Simulator)
    (s : Bullet) (dt : ℚ) :
    ∃ br bu, (Simulator.calculateAccelerationFor mo sim s dt).2 =
      { s with betaEqRight := br, betaEqUp := bu } := by
  rw [Simulator.calculateAccelerationFor]
  split_ifs
  · exact ⟨s.betaEqRight, s.betaEqUp, rfl⟩
  · obtain ⟨br, bu, h⟩ := computeSpinWindAccel_beta_only mo sim s
      ⟨0, -GRAVITY, 0⟩ sim.wind dt
    exact ⟨br, bu, h⟩

/-- Field-level consequences: the acceleration evaluation preserves the
static properties and the spin rate of its bullet. -/
theorem calcAccel_preserves (mo : MathOps) (sim : Simulator) (s : Bullet)
    (dt : ℚ) :
    ((Simulator.calculateAccelerationFor mo sim s dt).2).weight = s.weight ∧
    ((Simulator.calculateAccelerationFor mo sim s dt).2).diameter =
      s.diameter ∧
    ((Simulator.calculateAccelerationFor mo sim s dt).2).length = s.length ∧
    ((Simulator.calculateAccelerationFor mo sim s dt).2).bc = s.bc ∧
    ((Simulator.calculateAccelerationFor mo sim s dt).2).dragFunction =
      s.dragFunction ∧
    ((Simulator.calculateAccelerationFor mo sim s dt).2).spinRate =
      s.spinRate := by
  obtain ⟨br, bu, h⟩ := calculateAccelerationFor_beta_only mo sim s dt
  rw [h]
  exact ⟨rfl, rfl, rfl, rfl, rfl, rfl⟩

/-- Static properties survive building a flying state and evaluating the
acceleration on it. -/
theorem flying_then_accel (mo : MathOps) (sim : Simulator) (dt : ℚ)
    (b : Bullet) (x v : Vector3D) (sp : ℚ) :
    ((Simulator.calculateAccelerationFor mo sim (Bullet.flying b x v sp)
        dt).2).weight = b.weight ∧
    ((Simulator.calculateAccelerationFor mo sim (Bullet.flying b x v sp)
        dt).2).diameter = b.diameter ∧
    ((Simulator.calculateAccelerationFor mo sim (Bullet.flying b x v sp)
        dt).2).length = b.length ∧
    ((Simulator.calculateAccelerationFor mo sim (Bullet.flying b x v sp)
        dt).2).bc = b.bc ∧
    ((Simulator.calculateAccelerationFor mo sim (Bullet.flying b x v sp)
        dt).2).dragFunction = b.dragFunction := by
  have h := calcAccel_preserves mo sim (Bullet.flying b x v sp) dt
  exact ⟨h.1, h.2.1, h.2.2.1, h.2.2.2.1, h.2.2.2.2.1⟩

/-- `a·(0.5·dt)` is the same vector as `a·(dt/2)`. -/
theorem halfdt_smul (a : Vector3D) (dt : ℚ) :
    a.smul (0.5 * dt) = a.smul (dt / 2) := by
  simp only [Vector3D.smul, Vector3D.mk.injEq]
  refine ⟨by ring, by ring, by ring⟩

/-! ### Trajectory-time invariant lemmas -/

/-- A time step with `dt > 0` preserves the strictly-increasing-times
invariant: it appends one point at the new current time. -/
theorem timeStep_goodTraj (mo : MathOps) (sim : Simulator) (dt : ℚ)
    (hdt : 0 < dt) (h : sim.goodTraj) :
    (Simulator.timeStep mo sim dt).goodTraj := by
  obtain ⟨hchain, hle⟩ := h
  have htraj : (Simulator.timeStep mo sim dt).trajectory =
      sim.trajectory ++ [⟨sim.currentTime + dt,
        (Simulator.timeStep mo sim dt).currentBullet, sim.wind⟩] := rfl
  have htime : (Simulator.timeStep mo sim dt).currentTime =
      sim.currentTime + dt := rfl
  constructor
  · rw [timesIncreasing, htraj, List.chain'_append]
    refine ⟨hchain, List.chain'_singleton _, ?_⟩
    intro x hx y hy
    simp only [List.head?_cons, Option.mem_def, Option.some.injEq] at hy
    obtain ⟨hne, rfl⟩ := List.mem_getLast?_eq_getLast hx
    have hlast := hle _ (List.getLast_mem hne)
    subst hy
    show (sim.trajectory.getLast hne).time < sim.currentTime + dt
    linarith
  · intro p hp
    rw [htraj] at hp
    rw [htime]
    rcases List.mem_append.mp hp with hp | hp
    · have := hle _ hp
      linarith
    · simp only [List.mem_singleton] at hp
      subst hp
      simp only []
      linarith

/-- The simulate loop preserves the invariant for `dt > 0`. -/
theorem simulateLoop_goodTraj (mo : MathOps) (d dt T : ℚ) (hdt : 0 < dt) :
    ∀ fuel (sim : Simulator), sim.goodTraj →
      (Simulator.simulateLoop mo d dt T fuel sim).goodTraj := by
  intro fuel
  induction fuel with
  | zero => intro sim h; exact h
  | succ n ih =>
    intro sim h
    rw [Simulator.simulateLoop]
    by_cases hc : sim.currentTime < T
    · rw [if_pos hc]
      by_cases hb : d < -(Simulator.timeStep mo sim dt).currentBullet.position.z
      · rw [if_pos hb]
        exact timeStep_goodTraj mo sim dt hdt h
      · rw [if_neg hb]
        exact ih _ (timeStep_goodTraj mo sim dt hdt h)
    · rw [if_neg hc]
      exact h

/-- A `simulate` call made with an empty trajectory establishes the
invariant (its initial sample is the only point) and preserves it through
the loop. -/
theorem simulate_goodTraj (mo : MathOps) (sim : Simulator) (d dt T : ℚ)
    (hdt : 0 < dt) (hemp : sim.trajectory = []) :
    (Simulator.simulate mo sim d dt T).goodTraj := by
  rw [Simulator.simulate]
  apply simulateLoop_goodTraj mo d dt _ hdt
  constructor
  · rw [timesIncreasing]
    simp only [hemp, List.nil_append]
    exact List.chain'_singleton _
  · intro p hp
    simp only [hemp, List.nil_append, List.mem_singleton] at hp
    subst hp
    exact le_refl _

/-- Every reachable simulator state (timeStep with `dt > 0`, simulate with
`dt > 0` on an empty trajectory) satisfies the invariant. -/
theorem reachable_goodTraj (mo : MathOps) (sim : Simulator)
    (h : ReachableSim mo sim) : sim.goodTraj := by
  induction h with
  | start s hemp =>
    constructor
    · rw [timesIncreasing, hemp]; exact List.chain'_nil
    · intro p hp; rw [hemp] at hp; exact absurd hp (List.not_mem_nil p)
  | step dt _ hdt ih => exact timeStep_goodTraj _ _ _ hdt ih
  | run d dt T _ hdt hemp _ => exact simulate_goodTraj _ _ _ _ _ hdt hemp

/-- When the time bound is already reached, the simulate loop is a no-op. -/
theorem simulateLoop_stall (mo : MathOps) (d dt T : ℚ) (sim : Simulator)
    (h : ¬ sim.currentTime < T) :
    ∀ fuel, Simulator.simulateLoop mo d dt T fuel sim = sim := by
  intro fuel
  cases fuel with
  | zero => rfl
  | succ n => rw [Simulator.simulateLoop, if_neg h]

/-- `simulate` with `max_time = 0` appends exactly the initial sample at the
current time and performs no step. -/
theorem simulate_no_time (mo : MathOps) (sim : Simulator) (d dt : ℚ) :
    Simulator.simulate mo sim d dt 0 =
      { sim with trajectory := sim.trajectory ++
        [⟨sim.currentTime, sim.currentBullet, sim.wind⟩] } := by
  rw [Simulator.simulate]
  apply simulateLoop_stall
  simp only []
  linarith

/-! ### Claim theorems -/

/-- C1: one `Simulator::timeStep` produces final velocity `v₁ = v₀ +
a_half·dt`, final position `x₁ = x₀ + v_half·dt` with `v_half = v₀ +
a₀·dt/2` and `x_half = x₀ + v_half·dt/2`; the final state's two lag-filter
angles are exactly the ones written by the midpoint acceleration evaluation
on `state_half` (the state built from the start evaluation's output — the
C++ start call mutates the local copy — at the half-step kinematics), not
the ones written by the start evaluation; and the spin rate and the static
properties of the final state equal `s₀`'s. -/
theorem C1_timeStep_midpoint (mo : MathOps) (sim : Simulator) (dt : ℚ) :
    ∃ a0 vHalf stateHalf,
      a0 = (Simulator.calculateAccelerationFor mo sim sim.currentBullet dt).1 ∧
      vHalf = sim.currentBullet.velocity.add (a0.smul (dt / 2)) ∧
      stateHalf = Bullet.flying
        (Simulator.calculateAccelerationFor mo sim sim.currentBullet dt).2
        (sim.currentBullet.position.add (vHalf.smul (dt / 2))) vHalf
        sim.currentBullet.spinRate ∧
      (Simulator.timeStep mo sim dt).currentBullet.velocity =
        sim.currentBullet.velocity.add
          ((Simulator.calculateAccelerationFor mo sim stateHalf dt).1.smul
            dt) ∧
      (Simulator.timeStep mo sim dt).currentBullet.position =
        sim.currentBullet.position.add (vHalf.smul dt) ∧
      (Simulator.timeStep mo sim dt).currentBullet.betaEqRight =
        ((Simulator.calculateAccelerationFor mo sim stateHalf
          dt).2).betaEqRight ∧
      (Simulator.timeStep mo sim dt).currentBullet.betaEqUp =
        ((Simulator.calculateAccelerationFor mo sim stateHalf dt).2).betaEqUp ∧
      (Simulator.timeStep mo sim dt).currentBullet.spinRate =
        sim.currentBullet.spinRate ∧
      (Simulator.timeStep mo sim dt).currentBullet.weight =
        sim.currentBullet.weight ∧
      (Simulator.timeStep mo sim dt).currentBullet.diameter =
        sim.currentBullet.diameter ∧
      (Simulator.timeStep mo sim dt).currentBullet.length =
        sim.currentBullet.length ∧
      (Simulator.timeStep mo sim dt).currentBullet.bc =
        sim.currentBullet.bc ∧
      (Simulator.timeStep mo sim dt).currentBullet.dragFunction =
        sim.currentBullet.dragFunction ∧
      (Simulator.timeStep mo sim dt).currentBullet.hasFlightState = true := by
  have hv : sim.currentBullet.velocity.add
      ((Simulator.calculateAccelerationFor mo sim sim.currentBullet dt).1.smul
        (0.5 * dt)) =
      sim.currentBullet.velocity.add
      ((Simulator.calculateAccelerationFor mo sim sim.currentBullet dt).1.smul
        (dt / 2)) := by
    rw [halfdt_smul]
  have h1 := calcAccel_preserves mo sim sim.currentBullet dt
  refine ⟨_, _, _, rfl, rfl, rfl, ?_, ?_, ?_, ?_, rfl,
    ((flying_then_accel mo sim dt _ _ _ _).1).trans h1.1,
    ((flying_then_accel mo sim dt _ _ _ _).2.1).trans h1.2.1,
    ((flying_then_accel mo sim dt _ _ _ _).2.2.1).trans h1.2.2.1,
    ((flying_then_accel mo sim dt _ _ _ _).2.2.2.1).trans h1.2.2.2.1,
    ((flying_then_accel mo sim dt _ _ _ _).2.2.2.2).trans h1.2.2.2.2.1, rfl⟩
  · have hc : (Simulator.timeStep mo sim dt).currentBullet.velocity =
        sim.currentBullet.velocity.add
          ((Simulator.calculateAccelerationFor mo sim
            (Bullet.flying
              (Simulator.calculateAccelerationFor mo sim sim.currentBullet
                dt).2
              (sim.currentBullet.position.add
                ((sim.currentBullet.velocity.add
                  ((Simulator.calculateAccelerationFor mo sim
                    sim.currentBullet dt).1.smul (0.5 * dt))).smul (0.5 * dt)))
              (sim.currentBullet.velocity.add
                ((Simulator.calculateAccelerationFor mo sim sim.currentBullet
                  dt).1.smul (0.5 * dt)))
              sim.currentBullet.spinRate) dt).1.smul dt) := rfl
    rw [hc, hv, halfdt_smul]
  · have hc : (Simulator.timeStep mo sim dt).currentBullet.position =
        sim.currentBullet.position.add
          ((sim.currentBullet.velocity.add
            ((Simulator.calculateAccelerationFor mo sim sim.currentBullet
              dt).1.smul (0.5 * dt))).smul dt) := rfl
    rw [hc, hv]
  · have hc : (Simulator.timeStep mo sim dt).currentBullet.betaEqRight =
        ((Simulator.calculateAccelerationFor mo sim
          (Bullet.flying
            (Simulator.calculateAccelerationFor mo sim sim.currentBullet dt).2
            (sim.currentBullet.position.add
              ((sim.currentBullet.velocity.add
                ((Simulator.calculateAccelerationFor mo sim sim.currentBullet
                  dt).1.smul (0.5 * dt))).smul (0.5 * dt)))
            (sim.currentBullet.velocity.add
              ((Simulator.calculateAccelerationFor mo sim sim.currentBullet
                dt).1.smul (0.5 * dt)))
            sim.currentBullet.spinRate) dt).2).betaEqRight := rfl
    rw [hc, hv, halfdt_smul]
  · have hc : (Simulator.timeStep mo sim dt).currentBullet.betaEqUp =
        ((Simulator.calculateAccelerationFor mo sim
          (Bullet.flying
            (Simulator.calculateAccelerationFor mo sim sim.currentBullet dt).2
            (sim.currentBullet.position.add
              ((sim.currentBullet.velocity.add
                ((Simulator.calculateAccelerationFor mo sim sim.currentBullet
                  dt).1.smul (0.5 * dt))).smul (0.5 * dt)))
            (sim.currentBullet.velocity.add
              ((Simulator.calculateAccelerationFor mo sim sim.currentBullet
                dt).1.smul (0.5 * dt)))
            sim.currentBullet.spinRate) dt).2).betaEqUp := rfl
    rw [hc, hv, halfdt_smul]

/-- C2 (amended): the drag lookup clamps high at or above the first
breakpoint and clamps low at or below zero as the claim states; but for a
speed strictly between two adjacent breakpoints it returns the entry whose
breakpoint is the **largest breakpoint strictly below** the speed (the
lower edge of the enclosing band), not the smallest breakpoint at or above
it. -/
theorem C2_dragLookup_amended (dragType : DragFunction) (vp : ℚ) (k : ℕ) :
    (bpOf (dragData dragType) 0 ≤ vp →
      findDragCoefficients vp dragType = coeffsOf (dragData dragType) 0) ∧
    (vp ≤ 0 →
      findDragCoefficients vp dragType =
        coeffsOf (dragData dragType) ((dragData dragType).length - 1)) ∧
    (1 ≤ k → k < (dragData dragType).length →
      bpOf (dragData dragType) k < vp → vp < bpOf (dragData dragType) (k - 1) →
      findDragCoefficients vp dragType = coeffsOf (dragData dragType) k) := by
  have hdesc : descendingBp (dragData dragType) := by
    cases dragType
    · exact descendingBp_G1
    · exact descendingBp_G7
  have hbp0 : 0 < bpOf (dragData dragType) 0 := by
    cases dragType <;> norm_num [dragData, bpOf, G1_DRAG_DATA, G7_DRAG_DATA]
  refine ⟨?_, ?_, ?_⟩
  · intro h
    rw [findDragCoefficients]
    rw [if_neg (by linarith), if_pos h]
  · intro h
    rw [findDragCoefficients, if_pos h]
  · intro hk1 hkn hlow hhigh
    have hlastlt : bpOf (dragData dragType) ((dragData dragType).length - 1) ≤
        bpOf (dragData dragType) k := bpOf_le_of_le _ hdesc (by omega)
      (by omega)
    have hlast0 : 0 ≤ bpOf (dragData dragType)
        ((dragData dragType).length - 1) := by
      cases dragType <;> norm_num [dragData, bpOf, G1_DRAG_DATA, G7_DRAG_DATA]
    have hk0 : bpOf (dragData dragType) (k - 1) ≤ bpOf (dragData dragType) 0 :=
      bpOf_le_of_le _ hdesc (by omega) (by omega)
    rw [findDragCoefficients]
    rw [if_neg (by linarith), if_neg (by push_neg; linarith)]
    exact dragSearchLoop_finds _ vp hdesc k hk1 hkn hlow hhigh.le
      ((dragData dragType).length) 0 ((dragData dragType).length - 1)
      (by omega) (by omega) (by omega) (by omega)

/-- Witness for C2: at 2000 fps the G7 lookup returns the coefficients of
entry 2 (breakpoint 1470, the largest breakpoint below the speed). -/
theorem C2_dragLookup_amended_witness :
    findDragCoefficients 2000 DragFunction.G7 = coeffsOf G7_DRAG_DATA 2 := by
  have h := (C2_dragLookup_amended DragFunction.G7 2000 2).2.2
  have hr := h (by norm_num) (by norm_num [dragData, G7_DRAG_DATA])
    (by norm_num [dragData, bpOf, G7_DRAG_DATA])
    (by norm_num [dragData, bpOf, G7_DRAG_DATA])
  simpa [dragData] using hr

/-- Counterexample to C2 as stated: 2000 fps lies strictly between the G7
breakpoints 1470 (entry 2) and 3000 (entry 1).  The only entries whose
breakpoint is ≥ 2000 are entries 0 and 1, and the smallest such breakpoint
is entry 1's; yet the lookup returns entry 2's coefficients, which differ
from both. -/
theorem C2_dragLookup_counterexample :
    findDragCoefficients 2000 DragFunction.G7 = coeffsOf G7_DRAG_DATA 2 ∧
    coeffsOf G7_DRAG_DATA 2 ≠ coeffsOf G7_DRAG_DATA 1 ∧
    coeffsOf G7_DRAG_DATA 2 ≠ coeffsOf G7_DRAG_DATA 0 ∧
    (2000 : ℚ) ≤ bpOf G7_DRAG_DATA 0 ∧ (2000 : ℚ) ≤ bpOf G7_DRAG_DATA 1 ∧
    bpOf G7_DRAG_DATA 2 < 2000 ∧
    findDragCoefficients 2000 DragFunction.G7 ≠ coeffsOf G7_DRAG_DATA 1 := by
  have h2 : dragSearchLoop G7_DRAG_DATA 2000 0 8 = coeffsOf G7_DRAG_DATA 2 :=
    dragSearchLoop_finds _ _ descendingBp_G7 2 (by norm_num)
      (by norm_num [G7_DRAG_DATA]) (by norm_num [bpOf, G7_DRAG_DATA])
      (by norm_num [bpOf, G7_DRAG_DATA]) 9 0 8 (by norm_num) (by norm_num)
      (by norm_num) (by norm_num [G7_DRAG_DATA])
  have hval : findDragCoefficients 2000 DragFunction.G7 =
      coeffsOf G7_DRAG_DATA 2 := by
    rw [findDragCoefficients, if_neg (by norm_num),
      if_neg (by norm_num [dragData, bpOf, G7_DRAG_DATA])]
    simpa [dragData, G7_DRAG_DATA] using h2
  have hne : coeffsOf G7_DRAG_DATA 2 ≠ coeffsOf G7_DRAG_DATA 1 := by
    norm_num [coeffsOf, G7_DRAG_DATA]
  refine ⟨hval, hne, ?_, ?_, ?_, ?_, fun hc => hne (hval ▸ hc)⟩
  · norm_num [coeffsOf, G7_DRAG_DATA]
  · norm_num [bpOf, G7_DRAG_DATA]
  · norm_num [bpOf, G7_DRAG_DATA]
  · norm_num [bpOf, G7_DRAG_DATA]

/-- C3 (code bug): the transient crosswind-jump components are
`(jumpR, jumpU) = scale·hand·(−hpU, −hpR)` — an improper reflection of the
(right, up) pair (determinant −1), not the 90° rotation the code's own
comment and the spec describe.  At `scale = hand = hpR = hpU = 1` the code
yields `(−1, −1)`, while either 90° rotation would give `(−1, +1)` or
`(+1, −1)`. -/
theorem C3_crosswindJump_reflection :
    (∀ scale hand hpR hpU : ℚ, Simulator.jumpComponents scale hand hpR hpU =
      (scale * (hand * (-hpU)), scale * (hand * (-hpR)))) ∧
    Simulator.jumpComponents 1 1 1 1 = (-1, -1) ∧
    Simulator.jumpComponents 1 1 1 1 ≠ (1 * (1 * (-(1 : ℚ))), 1 * (1 * (1 : ℚ))) ∧
    Simulator.jumpComponents 1 1 1 1 ≠ (1 * (1 * (1 : ℚ)), 1 * (1 * (-(1 : ℚ)))) := by
  refine ⟨fun scale hand hpR hpU => rfl, ?_, ?_, ?_⟩ <;>
    norm_num [Simulator.jumpComponents, Prod.ext_iff]

/-- C4 (amended): for a query strictly inside the stored range, the state
returned by `atDistance`/`atTime` is built through the flying-bullet
constructor applied to the *left* bracketing state, so it carries that
state's lag-filter angles verbatim — the angles are not interpolated, but
they *are* carried through from a bracketing state. -/
theorem C4_lagAngles_amended :
    (∀ (pts : List TrajectoryPoint) (q : ℚ), pts ≠ [] →
      (ptAt pts 0).getDistance < q →
      q < (ptAt pts (pts.length - 1)).getDistance →
      ∃ k, k + 1 ≤ pts.length - 1 ∧ (ptAt pts k).getDistance ≤ q ∧
        q < (ptAt pts (k + 1)).getDistance ∧
        ∃ pt, atDistance pts q = some pt ∧
          pt.state.betaEqRight = (ptAt pts k).state.betaEqRight ∧
          pt.state.betaEqUp = (ptAt pts k).state.betaEqUp) ∧
    (∀ (pts : List TrajectoryPoint) (q : ℚ), pts ≠ [] →
      (ptAt pts 0).time < q →
      q < (ptAt pts (pts.length - 1)).time →
      ∃ k, k + 1 ≤ pts.length - 1 ∧ (ptAt pts k).time ≤ q ∧
        q < (ptAt pts (k + 1)).time ∧
        ∃ pt, atTime pts q = some pt ∧
          pt.state.betaEqRight = (ptAt pts k).state.betaEqRight ∧
          pt.state.betaEqUp = (ptAt pts k).state.betaEqUp) := by
  constructor
  · intro pts q hne h1 h2
    obtain ⟨k, hk, hb1, hb2, heq⟩ := atDistance_bracket pts q hne h1 h2
    exact ⟨k, hk, hb1, hb2, _, heq, rfl, rfl⟩
  · intro pts q hne h1 h2
    obtain ⟨k, hk, hb1, hb2, heq⟩ := atTime_bracket pts q hne h1 h2
    exact ⟨k, hk, hb1, hb2, _, heq, rfl, rfl⟩

/-- Witness for C4 on the concrete two-point trajectory `betaPts`. -/
theorem C4_lagAngles_amended_witness :
    ∃ k, k + 1 ≤ betaPts.length - 1 ∧ (ptAt betaPts k).getDistance ≤ 50 ∧
      (50 : ℚ) < (ptAt betaPts (k + 1)).getDistance ∧
      ∃ pt, atDistance betaPts 50 = some pt ∧
        pt.state.betaEqRight = (ptAt betaPts k).state.betaEqRight ∧
        pt.state.betaEqUp = (ptAt betaPts k).state.betaEqUp :=
  C4_lagAngles_amended.1 betaPts 50 (by simp [betaPts])
    (by norm_num [betaPts, ptAt, TrajectoryPoint.getDistance, demoBetaState,
      demoStatic, Bullet.flying, Bullet.mkStatic])
    (by norm_num [betaPts, ptAt, TrajectoryPoint.getDistance, demoBetaState,
      demoStatic, Bullet.flying, Bullet.mkStatic])

/-- Counterexample to C4 as stated: on `betaPts` the left bracketing state
stores the lag-filter angles `(1/2, 1/3)` and the interior query at 50
returns a state carrying exactly those angles, refuting "the interpolated
state does not carry the lag-filter angles of the stored bracketing
states". -/
theorem C4_lagAngles_counterexample :
    (atDistance betaPts 50).map (fun p => p.state.betaEqRight) = some (1/2) ∧
    (atDistance betaPts 50).map (fun p => p.state.betaEqUp) = some (1/3) ∧
    (ptAt betaPts 0).state.betaEqRight = 1/2 ∧
    (ptAt betaPts 0).state.betaEqUp = 1/3 ∧
    (ptAt betaPts 1).state.betaEqRight = 1/7 ∧
    ¬ (∀ pt, atDistance betaPts 50 = some pt →
        pt.state.betaEqRight ≠ (ptAt betaPts 0).state.betaEqRight) := by
  have hmain : (atDistance betaPts 50).map
      (fun p => p.state.betaEqRight) = some (1/2) ∧
      (atDistance betaPts 50).map (fun p => p.state.betaEqUp) = some (1/3) ∧
      (ptAt betaPts 0).state.betaEqRight = 1/2 ∧
      (ptAt betaPts 0).state.betaEqUp = 1/3 ∧
      (ptAt betaPts 1).state.betaEqRight = 1/7 := by
    rw [atDistance, if_neg (by simp [betaPts]),
      if_neg (by norm_num [betaPts, ptAt, TrajectoryPoint.getDistance,
        demoBetaState, demoStatic, Bullet.flying, Bullet.mkStatic]),
      if_neg (by norm_num [betaPts, ptAt, TrajectoryPoint.getDistance,
        demoBetaState, demoStatic, Bullet.flying, Bullet.mkStatic])]
    have hb : bracketSearch (fun i => (ptAt betaPts i).getDistance) 50 0
        (betaPts.length - 1) = (0, 1) := by
      rw [bracketSearch, if_neg (by norm_num [betaPts])]
      norm_num [betaPts]
    simp only [hb]
    norm_num [betaPts, ptAt, TrajectoryPoint.getDistance, demoBetaState,
      demoStatic, Bullet.flying, Bullet.mkStatic, interpolateByDistance]
  refine ⟨hmain.1, hmain.2.1, hmain.2.2.1, hmain.2.2.2.1, hmain.2.2.2.2, ?_⟩
  intro hall
  rcases hopt : atDistance betaPts 50 with _ | pt
  · rw [hopt] at hmain
    simp at hmain
  · have h1 := hmain.1
    rw [hopt] at h1
    simp at h1
    exact hall pt hopt (by rw [h1, hmain.2.2.1]; norm_num)

/-- C5: for queries strictly inside the stored range, `atDistance` and
`atTime` interpolate time, position, velocity, spin rate and wind linearly
with the parametric fraction `t = (target − lo)/(hi − lo)` between the two
adjacent bracketing points found by the binary search; and on the demo
trajectory `{(t=0,d=0), (t=1,d=100), (t=2,d=300)}` the query at 150 falls
between the second and third points with fraction 1/4 and time 5/4. -/
theorem C5_interpolation :
    (∀ (pts : List TrajectoryPoint) (q : ℚ), pts ≠ [] →
      (ptAt pts 0).getDistance < q →
      q < (ptAt pts (pts.length - 1)).getDistance →
      ∃ k, k + 1 ≤ pts.length - 1 ∧
        (ptAt pts k).getDistance ≤ q ∧ q < (ptAt pts (k + 1)).getDistance ∧
        atDistance pts q = some
          ⟨(ptAt pts k).time +
              (q - (ptAt pts k).getDistance) /
                ((ptAt pts (k + 1)).getDistance - (ptAt pts k).getDistance) *
                ((ptAt pts (k + 1)).time - (ptAt pts k).time),
            interpolateByDistance (ptAt pts k) (ptAt pts (k + 1)) q,
            (ptAt pts k).wind.lerp ((ptAt pts (k + 1)).wind)
              ((q - (ptAt pts k).getDistance) /
                ((ptAt pts (k + 1)).getDistance -
                  (ptAt pts k).getDistance))⟩) ∧
    (∀ (pts : List TrajectoryPoint) (q : ℚ), pts ≠ [] →
      (ptAt pts 0).time < q →
      q < (ptAt pts (pts.length - 1)).time →
      ∃ k, k + 1 ≤ pts.length - 1 ∧
        (ptAt pts k).time ≤ q ∧ q < (ptAt pts (k + 1)).time ∧
        atTime pts q = some
          ⟨q,
            Bullet.flying (ptAt pts k).state
              ((ptAt pts k).state.position.lerp
                ((ptAt pts (k + 1)).state.position)
                ((q - (ptAt pts k).time) /
                  ((ptAt pts (k + 1)).time - (ptAt pts k).time)))
              ((ptAt pts k).state.velocity.lerp
                ((ptAt pts (k + 1)).state.velocity)
                ((q - (ptAt pts k).time) /
                  ((ptAt pts (k + 1)).time - (ptAt pts k).time)))
              ((ptAt pts k).state.spinRate +
                (q - (ptAt pts k).time) /
                  ((ptAt pts (k + 1)).time - (ptAt pts k).time) *
                  ((ptAt pts (k + 1)).state.spinRate -
                    (ptAt pts k).state.spinRate)),
            (ptAt pts k).wind.lerp ((ptAt pts (k + 1)).wind)
              ((q - (ptAt pts k).time) /
                ((ptAt pts (k + 1)).time - (ptAt pts k).time))⟩ ∧
        (ptAt pts k).time +
            (q - (ptAt pts k).time) /
              ((ptAt pts (k + 1)).time - (ptAt pts k).time) *
              ((ptAt pts (k + 1)).time - (ptAt pts k).time) = q) ∧
    (atDistance demoPts 150 = some
      ⟨5/4, interpolateByDistance (ptAt demoPts 1) (ptAt demoPts 2) 150,
        Vector3D.lerp ⟨1, 0, 0⟩ ⟨2, 0, 0⟩ (1/4)⟩ ∧
      (150 - (ptAt demoPts 1).getDistance) /
        ((ptAt demoPts 2).getDistance - (ptAt demoPts 1).getDistance) = 1/4 ∧
      (interpolateByDistance (ptAt demoPts 1) (ptAt demoPts 2) 150).spinRate =
        5/2 ∧
      (ptAt demoPts 1).time = 1 ∧ (ptAt demoPts 2).time = 2) := by
  refine ⟨atDistance_bracket, ?_, ?_, ?_⟩
  · intro pts q hne h1 h2
    obtain ⟨k, hk, hb1, hb2, heq⟩ := atTime_bracket pts q hne h1 h2
    have hdz : (ptAt pts (k + 1)).time - (ptAt pts k).time ≠ 0 :=
      sub_ne_zero.mpr (ne_of_gt (lt_of_le_of_lt hb1 hb2))
    refine ⟨k, hk, hb1, hb2, heq, ?_⟩
    rw [div_mul_cancel₀ _ hdz]
    ring
  · rw [atDistance, if_neg (by simp [demoPts]),
      if_neg (by norm_num [demoPts, ptAt, TrajectoryPoint.getDistance,
        demoState, demoStatic, Bullet.flying, Bullet.mkStatic]),
      if_neg (by norm_num [demoPts, ptAt, TrajectoryPoint.getDistance,
        demoState, demoStatic, Bullet.flying, Bullet.mkStatic])]
    simp only [demoBracket]
    norm_num [demoPts, ptAt, TrajectoryPoint.getDistance, demoState,
      demoStatic, Bullet.flying, Bullet.mkStatic, Vector3D.lerp]
  · norm_num [demoPts, ptAt, TrajectoryPoint.getDistance, demoState,
      demoStatic, Bullet.flying, Bullet.mkStatic, interpolateByDistance]

/-- Witness for C5 at the spec's synthetic trajectory and query 150. -/
theorem C5_interpolation_witness :
    ∃ k, k + 1 ≤ demoPts.length - 1 ∧
      (ptAt demoPts k).getDistance ≤ 150 ∧
      (150 : ℚ) < (ptAt demoPts (k + 1)).getDistance ∧
      atDistance demoPts 150 = some
        ⟨(ptAt demoPts k).time +
            (150 - (ptAt demoPts k).getDistance) /
              ((ptAt demoPts (k + 1)).getDistance -
                (ptAt demoPts k).getDistance) *
              ((ptAt demoPts (k + 1)).time - (ptAt demoPts k).time),
          interpolateByDistance (ptAt demoPts k) (ptAt demoPts (k + 1)) 150,
          (ptAt demoPts k).wind.lerp ((ptAt demoPts (k + 1)).wind)
            ((150 - (ptAt demoPts k).getDistance) /
              ((ptAt demoPts (k + 1)).getDistance -
                (ptAt demoPts k).getDistance))⟩ :=
  C5_interpolation.1 demoPts 150 (by simp [demoPts])
    (by norm_num [demoPts, ptAt, TrajectoryPoint.getDistance, demoState,
      demoStatic, Bullet.flying, Bullet.mkStatic])
    (by norm_num [demoPts, ptAt, TrajectoryPoint.getDistance, demoState,
      demoStatic, Bullet.flying, Bullet.mkStatic])

/-- C6 (amended): both lookups return absence on the empty trajectory; a
query at or above the last point's distance returns the last point; a query
at or below the first point's distance returns the first point *provided it
is strictly below the last point's distance* (`atDistance` checks the
last-point clamp first); a query at or below the first point's time returns
the first point; and a query at or above the last point's time returns the
last point *provided it is strictly above the first point's time*
(`atTime` checks the first-point clamp first). -/
theorem C6_boundary_amended (pts : List TrajectoryPoint) (q : ℚ) :
    (atDistance ([] : List TrajectoryPoint) q = none ∧
      atTime ([] : List TrajectoryPoint) q = none) ∧
    (pts ≠ [] → (ptAt pts (pts.length - 1)).getDistance ≤ q →
      atDistance pts q = some (ptAt pts (pts.length - 1))) ∧
    (pts ≠ [] → q ≤ (ptAt pts 0).getDistance →
      q < (ptAt pts (pts.length - 1)).getDistance →
      atDistance pts q = some (ptAt pts 0)) ∧
    (pts ≠ [] → q ≤ (ptAt pts 0).time → atTime pts q = some (ptAt pts 0)) ∧
    (pts ≠ [] → (ptAt pts 0).time < q → (ptAt pts (pts.length - 1)).time ≤ q →
      atTime pts q = some (ptAt pts (pts.length - 1))) := by
  refine ⟨⟨rfl, rfl⟩, ?_, ?_, ?_, ?_⟩
  · intro hne h
    have hne' : ¬ (pts.isEmpty = true) := by simpa [List.isEmpty_iff] using hne
    rw [atDistance, if_neg hne', if_pos h]
  · intro hne h1 h2
    have hne' : ¬ (pts.isEmpty = true) := by simpa [List.isEmpty_iff] using hne
    rw [atDistance, if_neg hne', if_neg (not_le.mpr h2), if_pos h1]
  · intro hne h
    have hne' : ¬ (pts.isEmpty = true) := by simpa [List.isEmpty_iff] using hne
    rw [atTime, if_neg hne', if_pos h]
  · intro hne h1 h2
    have hne' : ¬ (pts.isEmpty = true) := by simpa [List.isEmpty_iff] using hne
    rw [atTime, if_neg hne', if_neg (not_le.mpr h1), if_pos h2]

/-- Witness for C6 on the demo trajectory: out-of-range queries clamp to
the endpoints and the empty trajectory yields absence. -/
theorem C6_boundary_amended_witness :
    atDistance demoPts 1000 = some (ptAt demoPts 2) ∧
    atDistance demoPts (-10) = some (ptAt demoPts 0) ∧
    atDistance ([] : List TrajectoryPoint) 5 = none := by
  refine ⟨?_, ?_, (C6_boundary_amended [] 5).1.1⟩
  · have h := (C6_boundary_amended demoPts 1000).2.1 (by simp [demoPts])
      (by norm_num [demoPts, ptAt, TrajectoryPoint.getDistance, demoState,
        demoStatic, Bullet.flying, Bullet.mkStatic])
    simpa [demoPts] using h
  · have h := (C6_boundary_amended demoPts (-10)).2.2.1 (by simp [demoPts])
      (by norm_num [demoPts, ptAt, TrajectoryPoint.getDistance, demoState,
        demoStatic, Bullet.flying, Bullet.mkStatic])
      (by norm_num [demoPts, ptAt, TrajectoryPoint.getDistance, demoState,
        demoStatic, Bullet.flying, Bullet.mkStatic])
    simpa [demoPts] using h

/-- Counterexample to C6 as stated: on the non-monotone trajectory
`nonMonoPts` (distances 5 then 3), the query 4 is at or below the first
point's distance, yet `atDistance` returns the *last* point (its
at-or-above-last check runs first), not the first point the claim
requires. -/
theorem C6_boundary_counterexample :
    atDistance nonMonoPts 4 = some (ptAt nonMonoPts 1) ∧
    (4 : ℚ) ≤ (ptAt nonMonoPts 0).getDistance ∧
    (ptAt nonMonoPts 1).state.position.x = 3 ∧
    (ptAt nonMonoPts 0).state.position.x = 5 ∧
    ¬ (∀ r, atDistance nonMonoPts 4 = some r → r = ptAt nonMonoPts 0) := by
  have hmain : atDistance nonMonoPts 4 = some (ptAt nonMonoPts 1) ∧
      (4 : ℚ) ≤ (ptAt nonMonoPts 0).getDistance ∧
      (ptAt nonMonoPts 1).state.position.x = 3 ∧
      (ptAt nonMonoPts 0).state.position.x = 5 := by
    rw [atDistance]
    rw [if_neg (by norm_num [nonMonoPts]),
      if_pos (by norm_num [nonMonoPts, ptAt, TrajectoryPoint.getDistance,
        demoState, demoStatic, Bullet.flying, Bullet.mkStatic])]
    norm_num [nonMonoPts, ptAt, TrajectoryPoint.getDistance, demoState,
      demoStatic, Bullet.flying, Bullet.mkStatic]
  refine ⟨hmain.1, hmain.2.1, hmain.2.2.1, hmain.2.2.2, ?_⟩
  intro hall
  have heq := hall _ hmain.1
  have h3 := hmain.2.2.1
  rw [heq] at h3
  rw [hmain.2.2.2] at h3
  norm_num at h3

/-- C7: the zeroing loop stops as soon as an iteration's 2-D error
magnitude at the target distance is below the tolerance, returning the
angles of that iteration unchanged; it equally stops (returning the current
best-effort angles) when the trial yields no point at the target distance
or when the iteration budget is exhausted; and `computeZero` always returns
— without any error path — the state rebuilt from the loop's last-computed
angles. -/
theorem C7_zeroSolver_softFail (mo : MathOps)
    (trial : Simulator → ℚ → ℚ → Simulator × Option TrajectoryPoint)
    (targetPosition : Vector3D) (tolerance : ℚ) (n : ℕ) (sim : Simulator)
    (pitch yaw : ℚ) (pt : TrajectoryPoint) (muzzle dt spin : ℚ)
    (maxIter : ℕ) :
    (Simulator.zeroLoop mo trial targetPosition tolerance 0 sim pitch yaw =
      (sim, pitch, yaw)) ∧
    ((trial sim pitch yaw).2 = none →
      Simulator.zeroLoop mo trial targetPosition tolerance (n + 1) sim pitch
        yaw = ((trial sim pitch yaw).1, pitch, yaw)) ∧
    ((trial sim pitch yaw).2 = some pt →
      mo.sqrt ((pt.state.position.sub targetPosition).x *
          (pt.state.position.sub targetPosition).x +
        (pt.state.position.sub targetPosition).y *
          (pt.state.position.sub targetPosition).y) < tolerance →
      Simulator.zeroLoop mo trial targetPosition tolerance (n + 1) sim pitch
        yaw = ((trial sim pitch yaw).1, pitch, yaw)) ∧
    (Simulator.computeZero mo sim muzzle targetPosition dt maxIter tolerance
        spin =
      (Simulator.resetToInitial
        { (Simulator.zeroLoop mo
            (Simulator.zeroTrial mo muzzle targetPosition dt spin)
            targetPosition tolerance maxIter sim 0.01 0).1 with
          initialBullet := Bullet.flying
            (Simulator.zeroLoop mo
              (Simulator.zeroTrial mo muzzle targetPosition dt spin)
              targetPosition tolerance maxIter sim 0.01 0).1.initialBullet
            Vector3D.zero
            (Simulator.launchVelocity mo muzzle
              (Simulator.zeroLoop mo
                (Simulator.zeroTrial mo muzzle targetPosition dt spin)
                targetPosition tolerance maxIter sim 0.01 0).2.1
              (Simulator.zeroLoop mo
                (Simulator.zeroTrial mo muzzle targetPosition dt spin)
                targetPosition tolerance maxIter sim 0.01 0).2.2) spin },
       Bullet.flying
         (Simulator.zeroLoop mo
           (Simulator.zeroTrial mo muzzle targetPosition dt spin)
           targetPosition tolerance maxIter sim 0.01 0).1.initialBullet
         Vector3D.zero
         (Simulator.launchVelocity mo muzzle
           (Simulator.zeroLoop mo
             (Simulator.zeroTrial mo muzzle targetPosition dt spin)
             targetPosition tolerance maxIter sim 0.01 0).2.1
           (Simulator.zeroLoop mo
             (Simulator.zeroTrial mo muzzle targetPosition dt spin)
             targetPosition tolerance maxIter sim 0.01 0).2.2) spin)) := by
  refine ⟨rfl, ?_, ?_, rfl⟩
  · intro h
    rw [Simulator.zeroLoop]
    simp only [h]
  · intro h hlt
    rw [Simulator.zeroLoop]
    simp only [h]
    rw [if_pos hlt]

/-- Witness for C7: a trial whose point already sits on the target makes
the loop return immediately with the initial angles. -/
theorem C7_zeroSolver_softFail_witness :
    Simulator.zeroLoop trivialOps
      (fun s _ _ => (s, some ⟨0, demoState 0 0, Vector3D.zero⟩))
      Vector3D.zero 1 1 c8Sim (1/100) 0 = (c8Sim, 1/100, 0) :=
  (C7_zeroSolver_softFail trivialOps
    (fun s _ _ => (s, some ⟨0, demoState 0 0, Vector3D.zero⟩))
    Vector3D.zero 1 0 c8Sim (1/100) 0 ⟨0, demoState 0 0, Vector3D.zero⟩
    0 0 0 0).2.2.1 rfl
    (by norm_num [trivialOps, demoState, demoStatic, Bullet.flying,
      Bullet.mkStatic, Vector3D.sub, Vector3D.zero])

/-- C8 (amended): along any sequence of `timeStep` calls with `dt > 0` and
`simulate` calls with `dt > 0` that are each made with the trajectory
empty (as after a reset, the way `computeZero` always calls it), the stored
points' times are strictly increasing. -/
theorem C8_timesIncreasing_amended (mo : MathOps) (sim : Simulator)
    (h : ReachableSim mo sim) : timesIncreasing sim.trajectory :=
  (reachable_goodTraj mo sim h).1

/-- Witness for C8: one simulate call on a freshly reset simulator. -/
theorem C8_timesIncreasing_amended_witness :
    timesIncreasing (Simulator.simulate trivialOps c8Sim 100 1 5).trajectory :=
  C8_timesIncreasing_amended trivialOps _
    (ReachableSim.run 100 1 5 (ReachableSim.start c8Sim rfl) (by norm_num) rfl)

/-- Counterexample to C8 as stated: two consecutive `simulate` calls with
`dt = 1 > 0` (the second made while the trajectory is non-empty) append two
points at the same time, so the times of the stored points are not strictly
increasing. -/
theorem C8_timesIncreasing_counterexample :
    ¬ timesIncreasing
      (Simulator.simulate trivialOps
        (Simulator.simulate trivialOps c8Sim 100 1 0) 100 1 0).trajectory ∧
    (0 : ℚ) < 1 := by
  rw [simulate_no_time, simulate_no_time]
  refine ⟨?_, by norm_num⟩
  simp only [c8Sim, timesIncreasing, List.nil_append, List.cons_append,
    List.chain'_cons, List.chain'_singleton, and_true]
  norm_num

/-- C9: a time step leaves the current bullet's spin rate and all static
properties (weight, diameter, length, ballistic coefficient, drag function)
unchanged; only position, velocity and the two lag-filter angles can
change. -/
theorem C9_timeStep_frame (mo : MathOps) (sim : Simulator) (dt : ℚ) :
    ((Simulator.timeStep mo sim dt).currentBullet).spinRate =
      sim.currentBullet.spinRate ∧
    ((Simulator.timeStep mo sim dt).currentBullet).weight =
      sim.currentBullet.weight ∧
    ((Simulator.timeStep mo sim dt).currentBullet).diameter =
      sim.currentBullet.diameter ∧
    ((Simulator.timeStep mo sim dt).currentBullet).length =
      sim.currentBullet.length ∧
    ((Simulator.timeStep mo sim dt).currentBullet).bc =
      sim.currentBullet.bc ∧
    ((Simulator.timeStep mo sim dt).currentBullet).dragFunction =
      sim.currentBullet.dragFunction := by
  have h1 := calcAccel_preserves mo sim sim.currentBullet dt
  refine ⟨rfl, ?_, ?_, ?_, ?_, ?_⟩
  · exact ((flying_then_accel mo sim dt _ _ _ _).1).trans h1.1
  · exact ((flying_then_accel mo sim dt _ _ _ _).2.1).trans h1.2.1
  · exact ((flying_then_accel mo sim dt _ _ _ _).2.2.1).trans h1.2.2.1
  · exact ((flying_then_accel mo sim dt _ _ _ _).2.2.2.1).trans h1.2.2.2.1
  · exact ((flying_then_accel mo sim dt _ _ _ _).2.2.2.2).trans h1.2.2.2.2.1

/-- C10: when `computeZero` returns, the simulator has been reset: the
current bullet and the initial bullet both equal the returned zeroed
bullet, the clock is zero, and the trajectory is empty. -/
theorem C10_computeZero_reset (mo : MathOps) (sim : Simulator) (muzzle : ℚ)
    (target : Vector3D) (dt : ℚ) (maxIter : ℕ) (tol spin : ℚ) :
    ((Simulator.computeZero mo sim muzzle target dt maxIter tol
        spin).1).currentBullet =
      (Simulator.computeZero mo sim muzzle target dt maxIter tol spin).2 ∧
    ((Simulator.computeZero mo sim muzzle target dt maxIter tol
        spin).1).initialBullet =
      (Simulator.computeZero mo sim muzzle target dt maxIter tol spin).2 ∧
    ((Simulator.computeZero mo sim muzzle target dt maxIter tol
        spin).1).currentTime = 0 ∧
    ((Simulator.computeZero mo sim muzzle target dt maxIter tol
        spin).1).trajectory = [] :=
  ⟨rfl, rfl, rfl, rfl⟩

end BTK
